import Mathlib

/-!
Verification of the BMFG native interop boundary (haxe-bmfg).

The repository's source is the header `src/BMFG_Native.h`: the C-callable
export surface of a native engine module. Two layers are embedded here.

1. The export table itself (names and signatures), transcribed from the
   `extern "C"` block of the header. This is the authoritative part of the
   source and decides the signature-level claims.

2. A state-machine semantics for the operations. The header declares no
   bodies, so the behaviour of each operation is modelled from the spec's
   description of the contract (each such definition carries a
   `Modelled from the spec:` doc comment naming what is missing from the
   source). Host calls and engine-originated messages are events; a world
   (engine state plus disk) steps under an event list, and claims about
   call sequences become theorems about traces.
-/

namespace BMFG

/-! ## The export table, transcribed from the header -/

/-- A C type appearing in the signatures of `src/BMFG_Native.h`. -/
inductive CType where
  | cInt
  | cFloat
  | cVoid
  | cConstCharPtr
  | cVoidPtr
  | cEngineCallback
deriving DecidableEq, Repr

/-- One exported function of the `extern "C"` block: its name, parameter
types in order, and return type. -/
structure CExport where
  name : String
  params : List CType
  ret : CType
deriving DecidableEq, Repr

/-- The full `extern "C"` export table of `src/BMFG_Native.h`, lines 19-49,
transcribed declaration by declaration. -/
def exportTable : List CExport :=
  [ ⟨"HxcppInit", [], CType.cConstCharPtr⟩,
    ⟨"setCallback", [CType.cEngineCallback], CType.cVoid⟩,
    ⟨"init", [], CType.cInt⟩,
    ⟨"initWithCallback", [CType.cEngineCallback], CType.cInt⟩,
    ⟨"updateFrame", [CType.cFloat], CType.cVoid⟩,
    ⟨"render", [], CType.cVoid⟩,
    ⟨"swapBuffers", [], CType.cVoid⟩,
    ⟨"shutdownEngine", [], CType.cVoid⟩,
    ⟨"release", [], CType.cVoid⟩,
    ⟨"loadState", [CType.cInt], CType.cVoid⟩,
    ⟨"isRunning", [], CType.cInt⟩,
    ⟨"getWindowWidth", [], CType.cInt⟩,
    ⟨"getWindowHeight", [], CType.cInt⟩,
    ⟨"setWindowSize", [CType.cInt, CType.cInt], CType.cVoid⟩,
    ⟨"getWindowHandle", [], CType.cVoidPtr⟩,
    ⟨"setWindowPosition", [CType.cInt, CType.cInt], CType.cVoid⟩,
    ⟨"setWindowSizeAndBorderless", [CType.cInt, CType.cInt], CType.cVoid⟩,
    ⟨"onMouseClick", [CType.cInt, CType.cInt], CType.cVoid⟩,
    ⟨"importFont", [CType.cConstCharPtr, CType.cFloat], CType.cVoid⟩,
    ⟨"rebakeFont",
      [CType.cFloat, CType.cInt, CType.cInt, CType.cInt, CType.cInt],
      CType.cVoid⟩,
    ⟨"exportFont", [CType.cConstCharPtr], CType.cVoid⟩,
    ⟨"loadFont", [CType.cConstCharPtr], CType.cVoid⟩ ]

/-! ## Data model -/

/-- A C `float` value crossing the boundary. The model performs no
arithmetic on floats (they are stored and compared only), so a float is
an opaque carrier of its bit pattern. -/
structure CFloat where
  bits : Nat
deriving DecidableEq, Repr

/-- A baked glyph atlas: font size, atlas pixel dimensions, the character
range parameters, and the list of character codes actually baked. -/
structure Bake where
  fontSize : CFloat
  atlasWidth : Int
  atlasHeight : Int
  firstChar : Int
  numChars : Int
  glyphs : List Int
deriving DecidableEq, Repr

/-- The character codes of the half-open range `[firstChar, firstChar+numChars)`
covered by a bake. -/
def bakeGlyphs (firstChar numChars : Int) : List Int :=
  (List.range numChars.toNat).map (fun i => firstChar + (i : Int))

/-- Build the bake produced by a rebake call. -/
def mkBake (size : CFloat) (aw ah first n : Int) : Bake :=
  ⟨size, aw, ah, first, n, bakeGlyphs first n⟩

/-- The process-wide engine state visible through the boundary: the hxcpp
bootstrap flag (`hxcpp_initialized` in the header), the Callback Slot
(`g_callback`), the running flag, whether the Engine Handle is alive, the
Window Descriptor fields, the top-level state index, the imported font,
the current bake, and the last forwarded click. Callbacks are function
pointers, modelled as opaque identifiers. -/
structure EngineState where
  hxcppReady : Bool
  gCallback : Option Nat
  running : Bool
  handleAlive : Bool
  windowWidth : Int
  windowHeight : Int
  windowX : Int
  windowY : Int
  borderless : Bool
  stateIndex : Int
  importedFont : Option (String × CFloat)
  atlas : Option Bake
  lastClick : Option (Int × Int)
deriving DecidableEq, Repr

/-- The state before any call: nothing bootstrapped, no callback, nothing
running, zero-sized window. -/
def initialEngineState : EngineState :=
  ⟨false, none, false, false, 0, 0, 0, 0, false, 0, none, none, none⟩

/-- A world pairs the engine state with the disk the font pipeline exports
to and loads from, modelled as an association list from bake name to bake. -/
structure World where
  eng : EngineState
  disk : List (String × Bake)
deriving DecidableEq, Repr

/-- The world before any call: initial engine state, empty disk. -/
def initialWorld : World := ⟨initialEngineState, []⟩

/-! ## Operations

Each operation keeps the name of its export. The header declares no bodies,
so every body below is modelled from the spec's contract description. -/

/-- Modelled from the spec: the body of `HxcppInit` is absent from the
source. Idempotent one-time runtime bootstrap; returns a human-readable
status string (a C `const char*`, modelled as `Option String` with `none`
for a null pointer). -/
def HxcppInit (s : EngineState) : EngineState × Option String :=
  ({ s with hxcppReady := true }, some "hxcpp runtime ready")

/-- Modelled from the spec: the body of `setCallback` is absent from the
source. Replaces the Callback Slot with the given callback (last-write-wins,
never queued). -/
def setCallback (s : EngineState) (cb : Nat) : EngineState :=
  { s with gCallback := some cb }

/-- Modelled from the spec: the body of `init` is absent from the source.
Creates the Engine Handle and starts the engine; returns a status code,
`0` for success. -/
def init (s : EngineState) : EngineState × Int :=
  ({ s with running := true, handleAlive := true }, 0)

/-- Modelled from the spec: the body of `initWithCallback` is absent from
the source. Registers the Callback Slot first, then performs `init`, so the
callback is in place before any engine-originated message could be emitted. -/
def initWithCallback (s : EngineState) (cb : Nat) : EngineState × Int :=
  init (setCallback s cb)

/-- Modelled from the spec: the body of `updateFrame` is absent from the
source. Advances simulation state; no field of the boundary-visible state
changes. -/
def updateFrame (s : EngineState) (_dt : CFloat) : EngineState := s

/-- Modelled from the spec: the body of `render` is absent from the source.
Produces a frame into an internal target; boundary-visible state unchanged. -/
def render (s : EngineState) : EngineState := s

/-- Modelled from the spec: the body of `swapBuffers` is absent from the
source. Presents the last rendered frame; boundary-visible state unchanged. -/
def swapBuffers (s : EngineState) : EngineState := s

/-- Modelled from the spec: the body of `shutdownEngine` is absent from the
source. Stops subsystems: the engine is no longer running, but the Engine
Handle stays addressable. -/
def shutdownEngine (s : EngineState) : EngineState :=
  { s with running := false }

/-- Modelled from the spec: the body of `release` is absent from the
source. Frees the Engine Handle itself. -/
def release (s : EngineState) : EngineState :=
  { s with handleAlive := false }

/-- Modelled from the spec: the body of `loadState` is absent from the
source. Switches the engine's top-level mode to the given index. -/
def loadState (s : EngineState) (i : Int) : EngineState :=
  { s with stateIndex := i }

/-- Modelled from the spec: the body of `isRunning` is absent from the
source. Boolean as int: nonzero while the engine runs. -/
def isRunning (s : EngineState) : Int :=
  if s.running then 1 else 0

/-- Modelled from the spec: the body of `getWindowWidth` is absent from the
source. -/
def getWindowWidth (s : EngineState) : Int := s.windowWidth

/-- Modelled from the spec: the body of `getWindowHeight` is absent from
the source. -/
def getWindowHeight (s : EngineState) : Int := s.windowHeight

/-- Modelled from the spec: the body of `setWindowSize` is absent from the
source. Applies the new size when both dimensions are positive; zero or
negative inputs must not corrupt the window state, so they leave it as is. -/
def setWindowSize (s : EngineState) (w h : Int) : EngineState :=
  { s with
    windowWidth := if 0 < w ∧ 0 < h then w else s.windowWidth,
    windowHeight := if 0 < w ∧ 0 < h then h else s.windowHeight }

/-- Modelled from the spec: the body of `getWindowHandle` is absent from
the source. Returns an opaque native handle (`none` models a null pointer
before the handle exists). -/
def getWindowHandle (s : EngineState) : Option Nat :=
  if s.handleAlive then some 0 else none

/-- Modelled from the spec: the body of `setWindowPosition` is absent from
the source. -/
def setWindowPosition (s : EngineState) (x y : Int) : EngineState :=
  { s with windowX := x, windowY := y }

/-- Modelled from the spec: the body of `setWindowSizeAndBorderless` is
absent from the source. The header declares two `int` parameters (width
and height, no borderless bit), so the style change applied together with
the size is the borderless style itself. Size validation is as for
`setWindowSize`. -/
def setWindowSizeAndBorderless (s : EngineState) (w h : Int) : EngineState :=
  { s with
    windowWidth := if 0 < w ∧ 0 < h then w else s.windowWidth,
    windowHeight := if 0 < w ∧ 0 < h then h else s.windowHeight,
    borderless := true }

/-- Modelled from the spec: the body of `onMouseClick` is absent from the
source. Forwards a click position in window-local coordinates. -/
def onMouseClick (s : EngineState) (x y : Int) : EngineState :=
  { s with lastClick := some (x, y) }

/-- Modelled from the spec: the body of `importFont` is absent from the
source. Loads a source font file at a nominal size. -/
def importFont (s : EngineState) (path : String) (size : CFloat) : EngineState :=
  { s with importedFont := some (path, size) }

/-- Modelled from the spec: the body of `rebakeFont` is absent from the
source. Regenerates the atlas over `[firstChar, firstChar+numChars)` when
the parameters are valid (positive atlas dimensions, positive character
count); `numChars = 0` and invalid parameters leave the atlas unchanged
and do not fault. -/
def rebakeFont (s : EngineState) (size : CFloat) (aw ah first n : Int) :
    EngineState :=
  { s with
    atlas :=
      if 0 < aw ∧ 0 < ah ∧ 0 < n then some (mkBake size aw ah first n)
      else s.atlas }

/-- The basename of a path: the component after the last slash. -/
def basename (p : String) : String :=
  (p.splitOn "/").getLastD p

/-- Modelled from the spec: the body of `exportFont` is absent from the
source. Persists the current bake to disk under the path's basename; with
no bake present nothing is written. -/
def exportFont (w : World) (path : String) : World :=
  { w with
    disk :=
      match w.eng.atlas with
      | some b => (basename path, b) :: w.disk
      | none => w.disk }

/-- Modelled from the spec: the body of `loadFont` is absent from the
source. Loads a previously exported bake back in by name, bypassing the
importing and rebaking stages; an unknown name changes nothing. -/
def loadFont (w : World) (name : String) : World :=
  { w with
    eng :=
      { w.eng with
        atlas :=
          match w.disk.lookup name with
          | some b => some b
          | none => w.eng.atlas } }

/-! ## Events and traces -/

/-- An event at the boundary: one host call through the export table, or
one engine-originated message pushed toward the Callback Slot (`emit`).
Value-returning calls are included as events so a call sequence can mention
them; their returned values are read off the state by the functions above. -/
inductive Event where
  | hxcppInit
  | setCallback (cb : Nat)
  | init
  | initWithCallback (cb : Nat)
  | updateFrame (dt : CFloat)
  | render
  | swapBuffers
  | shutdownEngine
  | release
  | loadState (i : Int)
  | isRunning
  | getWindowWidth
  | getWindowHeight
  | setWindowSize (w h : Int)
  | getWindowHandle
  | setWindowPosition (x y : Int)
  | setWindowSizeAndBorderless (w h : Int)
  | onMouseClick (x y : Int)
  | importFont (path : String) (size : CFloat)
  | rebakeFont (size : CFloat) (aw ah first n : Int)
  | exportFont (path : String)
  | loadFont (name : String)
  | emit (msg : String)
deriving DecidableEq, Repr

/-- Step the world under one event. Delivery of an `emit` message is
observed by `deliveries` and `droppedMsgs`; the state does not change. -/
def stepW (w : World) : Event → World
  | Event.hxcppInit => { w with eng := (HxcppInit w.eng).1 }
  | Event.setCallback cb => { w with eng := setCallback w.eng cb }
  | Event.init => { w with eng := (init w.eng).1 }
  | Event.initWithCallback cb => { w with eng := (initWithCallback w.eng cb).1 }
  | Event.updateFrame dt => { w with eng := updateFrame w.eng dt }
  | Event.render => { w with eng := render w.eng }
  | Event.swapBuffers => { w with eng := swapBuffers w.eng }
  | Event.shutdownEngine => { w with eng := shutdownEngine w.eng }
  | Event.release => { w with eng := release w.eng }
  | Event.loadState i => { w with eng := loadState w.eng i }
  | Event.isRunning => w
  | Event.getWindowWidth => w
  | Event.getWindowHeight => w
  | Event.setWindowSize a b => { w with eng := setWindowSize w.eng a b }
  | Event.getWindowHandle => w
  | Event.setWindowPosition x y => { w with eng := setWindowPosition w.eng x y }
  | Event.setWindowSizeAndBorderless a b =>
      { w with eng := setWindowSizeAndBorderless w.eng a b }
  | Event.onMouseClick x y => { w with eng := onMouseClick w.eng x y }
  | Event.importFont p sz => { w with eng := importFont w.eng p sz }
  | Event.rebakeFont sz aw ah first n =>
      { w with eng := rebakeFont w.eng sz aw ah first n }
  | Event.exportFont p => exportFont w p
  | Event.loadFont name => loadFont w name
  | Event.emit _ => w

/-- Run a whole event list from a world. -/
def runW (w : World) : List Event → World
  | [] => w
  | e :: tr => runW (stepW w e) tr

/-- Whether an event writes the Callback Slot. -/
def writesCallback : Event → Bool
  | Event.setCallback _ => true
  | Event.initWithCallback _ => true
  | _ => false

/-- The messages delivered along a trace, each paired with the callback
that received it: an `emit` is delivered to the currently registered
callback, or to nobody when the slot is empty. -/
def deliveries : World → List Event → List (Nat × String)
  | _, [] => []
  | w, e :: tr =>
    (match e, w.eng.gCallback with
     | Event.emit m, some c => [(c, m)]
     | _, _ => []) ++ deliveries (stepW w e) tr

/-- The messages dropped along a trace for lack of a registered callback:
an `emit` arriving while the Callback Slot is empty. -/
def droppedMsgs : World → List Event → List String
  | _, [] => []
  | w, e :: tr =>
    (match e, w.eng.gCallback with
     | Event.emit m, none => [m]
     | _, _ => []) ++ droppedMsgs (stepW w e) tr

/-- Everything a host can observe of a state through the value-returning
exports: `isRunning`, `getWindowWidth`, `getWindowHeight`,
`getWindowHandle`, and the `HxcppInit` status string. -/
def observe (s : EngineState) : Int × Int × Int × Option Nat × Option String :=
  (isRunning s, getWindowWidth s, getWindowHeight s, getWindowHandle s,
    (HxcppInit s).2)

end BMFG

namespace BMFG

/-! ## Step lemmas shared across claims -/

/-- Any event other than `shutdownEngine` keeps a running engine running. -/
lemma stepW_running (w : World) (e : Event) (he : e ≠ Event.shutdownEngine)
    (h : w.eng.running = true) : (stepW w e).eng.running = true := by
  cases e <;> simp_all [stepW, HxcppInit, setCallback, init, initWithCallback,
    updateFrame, render, swapBuffers, release, loadState, setWindowSize,
    setWindowPosition, setWindowSizeAndBorderless, onMouseClick, importFont,
    rebakeFont, exportFont, loadFont]

/-- A running engine stays running along any trace free of `shutdownEngine`. -/
lemma runW_running (tr : List Event) : ∀ w : World, w.eng.running = true →
    (∀ e ∈ tr, e ≠ Event.shutdownEngine) → (runW w tr).eng.running = true := by
  induction tr with
  | nil => intro w h _; simpa [runW] using h
  | cons e tr ih =>
    intro w h hns
    simp only [runW]
    exact ih (stepW w e)
      (stepW_running w e (hns e (List.mem_cons_self e tr)) h)
      (fun x hx => hns x (List.mem_cons_of_mem e hx))

/-- An event that does not write the Callback Slot leaves it unchanged. -/
lemma stepW_gCallback (w : World) (e : Event) (h : writesCallback e = false) :
    (stepW w e).eng.gCallback = w.eng.gCallback := by
  cases e <;> simp_all [stepW, writesCallback, HxcppInit, setCallback, init,
    initWithCallback, updateFrame, render, swapBuffers, shutdownEngine,
    release, loadState, setWindowSize, setWindowPosition,
    setWindowSizeAndBorderless, onMouseClick, importFont, rebakeFont,
    exportFont, loadFont]

/-- No event clears a populated Callback Slot back to empty. -/
lemma stepW_gCallback_isSome (w : World) (e : Event)
    (h : w.eng.gCallback.isSome = true) :
    (stepW w e).eng.gCallback.isSome = true := by
  cases e <;> simp_all [stepW, writesCallback, HxcppInit, setCallback, init,
    initWithCallback, updateFrame, render, swapBuffers, shutdownEngine,
    release, loadState, setWindowSize, setWindowPosition,
    setWindowSizeAndBorderless, onMouseClick, importFont, rebakeFont,
    exportFont, loadFont]

/-- With callback `B` registered and no further callback writes, every
emitted message of a trace is delivered to `B` and nothing else is
delivered. -/
lemma deliveries_const (B : Nat) (tr : List Event) : ∀ w : World,
    w.eng.gCallback = some B → (∀ e ∈ tr, writesCallback e = false) →
    deliveries w tr = tr.filterMap (fun e =>
      match e with | Event.emit m => some (B, m) | _ => none) := by
  induction tr with
  | nil => intro w _ _; simp [deliveries]
  | cons e tr ih =>
    intro w hcb hw
    have he : writesCallback e = false := hw e (List.mem_cons_self e tr)
    have hstep : (stepW w e).eng.gCallback = some B := by
      rw [stepW_gCallback w e he]; exact hcb
    have hrec := ih (stepW w e) hstep
      (fun x hx => hw x (List.mem_cons_of_mem e hx))
    cases e <;> simp_all [deliveries, List.filterMap_cons]

/-- With some callback registered, no message of a trace is dropped. -/
lemma droppedMsgs_nil (tr : List Event) : ∀ w : World,
    w.eng.gCallback.isSome = true → droppedMsgs w tr = [] := by
  induction tr with
  | nil => intro w _; simp [droppedMsgs]
  | cons e tr ih =>
    intro w h
    obtain ⟨c, hc⟩ : ∃ c, w.eng.gCallback = some c :=
      Option.isSome_iff_exists.mp h
    have hrec := ih (stepW w e) (stepW_gCallback_isSome w e h)
    cases e <;> simp_all [droppedMsgs]

/-- Whether an event is a `setCallback` call. -/
def isSetCallbackCall : Event → Bool
  | Event.setCallback _ => true
  | _ => false

end BMFG

namespace BMFG

/-! ## Claims -/

/-- C1, counterexample: the header declares `setWindowSizeAndBorderless`
with two `int` parameters, so no entry of the export table gives it three
`int` parameters and there is no borderless-bit parameter. -/
theorem setWindowSizeAndBorderless_two_params_cex :
    exportTable.find? (fun e => e.name == "setWindowSizeAndBorderless")
      = some ⟨"setWindowSizeAndBorderless", [CType.cInt, CType.cInt],
          CType.cVoid⟩
    ∧ (exportTable.all (fun e =>
        !(e.name == "setWindowSizeAndBorderless"
          && e.params.length == 3))) = true := by
  decide

/-- C1, amended: the exported function `setWindowSizeAndBorderless` takes
two int parameters (width and height) and returns void; the header declares
no borderless-bit parameter, so a caller applies size and the (implied)
borderless style in one combined call. -/
theorem setWindowSizeAndBorderless_signature :
    (∃ e ∈ exportTable, e.name = "setWindowSizeAndBorderless"
      ∧ e.params = [CType.cInt, CType.cInt] ∧ e.ret = CType.cVoid)
    ∧ (exportTable.filter (fun e =>
        e.name == "setWindowSizeAndBorderless")).length = 1 := by
  decide

/-- C2, counterexample: the export table has a setter for the window
position but no getter for it, and a position change is invisible to every
value-returning export, so a host cannot poll a matching getter to verify
the effect of `setWindowPosition`. -/
theorem windowPosition_getter_missing_cex :
    (exportTable.any (fun e => e.name == "setWindowPosition")) = true
    ∧ (exportTable.any (fun e => e.name == "getWindowPosition")) = false
    ∧ observe (setWindowPosition initialEngineState 10 20)
        = observe initialEngineState
    ∧ (setWindowPosition initialEngineState 10 20).windowX
        ≠ initialEngineState.windowX := by
  decide

/-- C2, amended: the Window Manager exposes getter/setter pairs for width
and height (`getWindowWidth`/`getWindowHeight` with `setWindowSize`), and
for position only a setter (`setWindowPosition`); no exported getter
returns the position, so a position change cannot be verified through a
matching getter at this boundary. -/
theorem window_getter_setter_surface :
    ((exportTable.any (fun e => e.name == "getWindowWidth"))
      && (exportTable.any (fun e => e.name == "getWindowHeight"))
      && (exportTable.any (fun e => e.name == "setWindowSize"))
      && (exportTable.any (fun e => e.name == "setWindowPosition"))) = true
    ∧ (exportTable.all (fun e => !(e.name == "getWindowPosition"))) = true
    ∧ getWindowWidth (setWindowSize initialEngineState 640 480) = 640
    ∧ getWindowHeight (setWindowSize initialEngineState 640 480) = 480
    ∧ observe (setWindowPosition initialEngineState 10 20)
        = observe initialEngineState := by
  decide

/-- C3: `HxcppInit` is idempotent: from any engine state, a second call
returns the same state and the same status string as the first, and the
returned status string is never null. The model is total, so no call
sequence makes it crash. -/
theorem hxcppInit_idempotent (s : EngineState) :
    HxcppInit (HxcppInit s).1 = HxcppInit s ∧ (HxcppInit s).2 ≠ none := by
  constructor
  · simp [HxcppInit]
  · simp [HxcppInit]

/-- C4: after `init`, `isRunning` returns `1` at every point of any call
sequence free of `shutdownEngine`, and immediately after `shutdownEngine`
it returns `0` from any state. -/
theorem isRunning_lifecycle (w : World) (tr : List Event)
    (hns : ∀ e ∈ tr, e ≠ Event.shutdownEngine) :
    (∀ n, isRunning (runW (stepW w Event.init) (tr.take n)).eng = 1)
    ∧ (∀ v : World, isRunning (stepW v Event.shutdownEngine).eng = 0) := by
  constructor
  · intro n
    have hrun : (runW (stepW w Event.init) (tr.take n)).eng.running = true := by
      apply runW_running
      · simp [stepW, init]
      · intro e he
        exact hns e (List.take_subset n tr he)
    simp [isRunning, hrun]
  · intro v
    simp [stepW, shutdownEngine, isRunning]

/-- Witness for C4 at a concrete trace of two frame calls. -/
theorem isRunning_lifecycle_witness :
    isRunning (runW (stepW initialWorld Event.init)
      (([Event.render, Event.swapBuffers] : List Event).take 2)).eng = 1 :=
  (isRunning_lifecycle initialWorld [Event.render, Event.swapBuffers]
    (by decide)).1 2

/-- C5: `setWindowSize` followed by the getters returns exactly the set
size when both dimensions are positive; for zero or negative inputs the
whole window state is left unchanged, so the previously observable width
and height remain valid. -/
theorem setWindowSize_get_roundtrip (s : EngineState) (w h : Int) :
    (0 < w → 0 < h →
      getWindowWidth (setWindowSize s w h) = w
      ∧ getWindowHeight (setWindowSize s w h) = h)
    ∧ (¬ (0 < w ∧ 0 < h) → setWindowSize s w h = s) := by
  constructor
  · intro hw hh
    simp [setWindowSize, getWindowWidth, getWindowHeight, hw, hh]
  · intro hc
    simp [setWindowSize, hc]

/-- Witness for C5 at a concrete state and size. -/
theorem setWindowSize_get_roundtrip_witness :
    getWindowWidth (setWindowSize initialEngineState 800 600) = 800
    ∧ getWindowHeight (setWindowSize initialEngineState 800 600) = 600 :=
  (setWindowSize_get_roundtrip initialEngineState 800 600).1
    (by decide) (by decide)

/-- C6: last-write-wins for the Callback Slot: after `setCallback A` then
`setCallback B`, along any continuation free of further callback writes,
the delivered messages are exactly the emitted ones, each received by `B`
(so only `B` receives every subsequent engine-originated message). -/
theorem setCallback_last_write_wins (w : World) (A B : Nat) (tr : List Event)
    (h : ∀ e ∈ tr, writesCallback e = false) :
    deliveries (stepW (stepW w (Event.setCallback A)) (Event.setCallback B)) tr
      = tr.filterMap (fun e =>
          match e with | Event.emit m => some (B, m) | _ => none) := by
  apply deliveries_const B tr _ _ h
  simp [stepW, setCallback]

/-- Witness for C6 at a concrete pair of callbacks and one message. -/
theorem setCallback_last_write_wins_witness :
    deliveries (stepW (stepW initialWorld (Event.setCallback 1))
      (Event.setCallback 2)) [Event.emit "ping"] = [(2, "ping")] := by
  have := setCallback_last_write_wins initialWorld 1 2 [Event.emit "ping"]
    (by decide)
  simpa using this

/-- C7: `rebakeFont` with `numChars = 0` leaves the engine state (its
atlas included) entirely unchanged, and the character range it would have
covered is empty; the model is total, so the call does not fault. -/
theorem rebakeFont_zero_chars (s : EngineState) (size : CFloat)
    (aw ah first : Int) :
    rebakeFont s size aw ah first 0 = s ∧ bakeGlyphs first 0 = [] := by
  constructor
  · simp [rebakeFont]
  · simp [bakeGlyphs]

/-- C8: export/load round-trip: with bake `b` current, `exportFont path`
followed by `loadFont` of the path's basename on a fresh engine instance
(initial engine state over the same disk) reproduces exactly the bake `b`. -/
theorem exportFont_loadFont_roundtrip (w : World) (path : String) (b : Bake)
    (h : w.eng.atlas = some b) :
    (stepW { eng := initialEngineState,
             disk := (stepW w (Event.exportFont path)).disk }
       (Event.loadFont (basename path))).eng.atlas = some b := by
  simp [stepW, exportFont, loadFont, h, List.lookup]

/-- A concrete bake used to exercise the round-trip claim. -/
def bake0 : Bake := mkBake ⟨0⟩ 256 256 32 95

/-- A concrete world whose engine holds `bake0` as its current atlas. -/
def bakedWorld : World :=
  { eng := { initialEngineState with atlas := some bake0 }, disk := [] }

/-- Witness for C8 at a concrete bake and path. -/
theorem exportFont_loadFont_roundtrip_witness :
    (stepW { eng := initialEngineState,
             disk := (stepW bakedWorld (Event.exportFont "out/font.png")).disk }
       (Event.loadFont (basename "out/font.png"))).eng.atlas
      = some bake0 :=
  exportFont_loadFont_roundtrip bakedWorld "out/font.png" bake0 rfl

/-- C9: an execution that starts with `initWithCallback` registers the
Callback Slot before anything else happens, and no later event empties it,
so along every continuation no engine-originated message is dropped for
lack of a registered callback. -/
theorem initWithCallback_no_dropped_messages (cb : Nat) (tr : List Event) :
    droppedMsgs (stepW initialWorld (Event.initWithCallback cb)) tr = [] := by
  apply droppedMsgs_nil
  simp [stepW, initWithCallback, init, setCallback]

/-- C10, counterexample: `initWithCallback` is an exported call that is not
`setCallback` and yet writes the Callback Slot, so `setCallback` is not the
only exported function that writes it. -/
theorem setCallback_not_only_writer_cex :
    (exportTable.any (fun e => e.name == "initWithCallback")) = true
    ∧ isSetCallbackCall (Event.initWithCallback 7) = false
    ∧ initialWorld.eng.gCallback = none
    ∧ (stepW initialWorld (Event.initWithCallback 7)).eng.gCallback
        = some 7 := by
  decide

/-- C10, amended: `setCallback` and `initWithCallback` are the only
exported calls that write the Callback Slot — every other event leaves it
unchanged — and no exported call clears a populated slot back to empty, so
a registered callback stays active until another write replaces it. -/
theorem callback_slot_persistence (w : World) (e : Event) :
    (writesCallback e = false →
      (stepW w e).eng.gCallback = w.eng.gCallback)
    ∧ (w.eng.gCallback.isSome = true →
      (stepW w e).eng.gCallback.isSome = true) :=
  ⟨fun h => stepW_gCallback w e h, fun h => stepW_gCallback_isSome w e h⟩

/-- Witness for C10 at a concrete populated slot and a `render` event. -/
theorem callback_slot_persistence_witness :
    (stepW (stepW initialWorld (Event.setCallback 3)) Event.render).eng.gCallback
        = (stepW initialWorld (Event.setCallback 3)).eng.gCallback
    ∧ (stepW (stepW initialWorld (Event.setCallback 3))
        Event.render).eng.gCallback.isSome = true :=
  ⟨(callback_slot_persistence (stepW initialWorld (Event.setCallback 3))
      Event.render).1 rfl,
   (callback_slot_persistence (stepW initialWorld (Event.setCallback 3))
      Event.render).2 (by decide)⟩

end BMFG
